import Mathlib

set_option maxRecDepth 16384

/-!
Verification of the BunQL WHERE-clause condition compiler and the fluent
statement builders (SELECT / UPDATE / DELETE / INSERT) against the source
under src/.  The TypeScript functions are shallowly embedded as Lean
functions; JavaScript objects used as condition mappings are embedded as
association lists in key-insertion order, and the optional fields of an
operator bag are embedded as `Option (Option _)`:
`none` = the key is absent, `some none` = the key is present with the
value `undefined`, `some (some v)` = the key is present with a defined
payload.  This distinction matters because `isWhereOperator` tests key
presence (`op in value`) while each compilation step tests
`value !== undefined`.
-/

/-- A SQLite bind value (TS type `SQLQueryBindings`, src/src/types.ts).
`objv` stands for a JavaScript object that contains none of the recognized
operator tags: `buildCondition` binds such an object as an ordinary
parameter on its scalar fallback path. -/
inductive Value where
  | int (n : Int)
  | str (s : String)
  | boolv (b : Bool)
  | nullv
  | objv
deriving DecidableEq, Repr

/-- A table row, as returned by the engine: column name to value. -/
abbrev Row := List (String × Value)

/-- Double-quote an identifier, as the source does with `"${key}"`.
No escaping is performed by the source. -/
def dquote (s : String) : String := "\"" ++ s ++ "\""

/-- JavaScript `Array.prototype.join(sep)`. -/
def joinSep (sep : String) : List String → String
  | [] => ""
  | [x] => x
  | x :: xs => x ++ sep ++ joinSep sep xs

/-- Number of `?` characters in a string (placeholder count, assuming no
`?` occurs inside an identifier). -/
def qcount (s : String) : Nat := s.data.countP (fun c => c = '?')

/-- The operator bag (TS interface `WhereOperator`, src/src/types.ts).
Field order below is the fixed order in which `buildCondition` compiles
the tags. -/
structure WhereOperator where
  eq : Option (Option Value) := none
  ne : Option (Option Value) := none
  gt : Option (Option Value) := none
  gte : Option (Option Value) := none
  lt : Option (Option Value) := none
  lte : Option (Option Value) := none
  like : Option (Option Value) := none
  notLike : Option (Option Value) := none
  inOp : Option (Option (List Value)) := none
  notInOp : Option (Option (List Value)) := none
  between : Option (Option (Value × Value)) := none
  isNull : Option (Option Bool) := none
deriving DecidableEq, Repr

/-- One column's condition value (TS type `WhereValue`): a scalar (implies
equality) or an operator bag.  A JavaScript `null` condition value is the
scalar `Value.nullv`: `isWhereOperator` rejects `null` explicitly
(`value === null` check), so `null` always takes the scalar path. -/
inductive WhereValue where
  | scalar (v : Value)
  | bag (b : WhereOperator)
deriving DecidableEq, Repr

/-- `isWhereOperator` (where-builder module; identical private copy in
QueryBuilder): the value is an object containing at least one recognized
operator key.  Key presence is the outer `Option`'s `isSome`, matching the
JS `op in value` test, which is true even for a present `undefined`. -/
def isWhereOperator (b : WhereOperator) : Bool :=
  b.eq.isSome || b.ne.isSome || b.gt.isSome || b.gte.isSome ||
  b.lt.isSome || b.lte.isSome || b.like.isSome || b.notLike.isSome ||
  b.inOp.isSome || b.notInOp.isSome || b.between.isSome || b.isNull.isSome

/-- Contribution of one scalar-payload tag (`$eq` .. `$notLike`): compiled
only when the payload is present and defined (`op.$tag !== undefined`),
in which case it emits one fragment and binds one parameter. -/
def scalarPiece (column fragOp : String) : Option (Option Value) → List String × List Value
  | some (some v) => ([column ++ fragOp], [v])
  | _ => ([], [])

/-- Contribution of `$in` / `$notIn`: one `?` per element of the payload
sequence.  The source also requires `Array.isArray`, which always holds at
the declared payload type `V[]`. -/
def inPiece (column kw : String) : Option (Option (List Value)) → List String × List Value
  | some (some l) => ([column ++ kw ++ "(" ++ joinSep ", " (l.map fun _ => "?") ++ ")"], l)
  | _ => ([], [])

/-- Contribution of `$between`: two placeholders, two parameters. -/
def betweenPiece (column : String) : Option (Option (Value × Value)) → List String × List Value
  | some (some (lo, hi)) => ([column ++ " BETWEEN ? AND ?"], [lo, hi])
  | _ => ([], [])

/-- Contribution of `$isNull`: a fragment with no bound parameter. -/
def isNullPiece (column : String) : Option (Option Bool) → List String × List Value
  | some (some b) => ([if b then column ++ " IS NULL" else column ++ " IS NOT NULL"], [])
  | _ => ([], [])

/-- The per-tag contributions of an operator bag, in the fixed source
order of `buildCondition` ($eq, $ne, $gt, $gte, $lt, $lte, $like,
$notLike, $in, $notIn, $between, $isNull).  Each entry is
(fragments emitted, parameters bound), both empty for an absent or
`undefined` tag. -/
def tagPieces (column : String) (b : WhereOperator) : List (List String × List Value) :=
  [ scalarPiece column " = ?" b.eq,
    scalarPiece column " != ?" b.ne,
    scalarPiece column " > ?" b.gt,
    scalarPiece column " >= ?" b.gte,
    scalarPiece column " < ?" b.lt,
    scalarPiece column " <= ?" b.lte,
    scalarPiece column " LIKE ?" b.like,
    scalarPiece column " NOT LIKE ?" b.notLike,
    inPiece column " IN " b.inOp,
    inPiece column " NOT IN " b.notInOp,
    betweenPiece column b.between,
    isNullPiece column b.isNull ]

/-- `buildCondition(key, value, params)` (where-builder module): compiles
one column's condition, appending bound parameters to `params`.  The
mutation of the JS `params` array is embedded by returning the extended
list. -/
def buildCondition (key : String) (v : WhereValue) (params : List Value) :
    String × List Value :=
  let column := dquote key
  match v with
  | .scalar x => (column ++ " = ?", params ++ [x])
  | .bag b =>
    if isWhereOperator b then
      let pieces := tagPieces column b
      (joinSep " AND " (pieces.map Prod.fst).flatten,
       params ++ (pieces.map Prod.snd).flatten)
    else
      -- an object with no recognized key falls through to the scalar
      -- equality path and is bound as a parameter itself
      (column ++ " = ?", params ++ [Value.objv])

/-- Fragment produced by `buildCondition` for one column (run on an empty
parameter list). -/
def condFrag (k : String) (v : WhereValue) : String := (buildCondition k v []).1

/-- Parameters appended by `buildCondition` for one column. -/
def condParams (k : String) (v : WhereValue) : List Value := (buildCondition k v []).2

/-- The `whereKeys.map(key => buildCondition(key, where[key], params))`
loop of `buildWhereClause`: threads the parameter list through the
columns, collecting the per-column fragments. -/
def buildWhereAux (w : List (String × WhereValue)) (acc : List String)
    (params : List Value) : List String × List Value :=
  match w with
  | [] => (acc, params)
  | kv :: rest =>
    let r := buildCondition kv.1 kv.2 params
    buildWhereAux rest (acc ++ [r.1]) r.2

/-- `buildWhereClause(where, params)` (where-builder module; identical
private copy in QueryBuilder): empty mapping compiles to the empty
fragment, otherwise the per-column fragments are joined with " AND ". -/
def buildWhereClause (w : List (String × WhereValue)) (params : List Value) :
    String × List Value :=
  if w.isEmpty then ("", params)
  else
    let r := buildWhereAux w [] params
    (joinSep " AND " r.1, r.2)

/-- `operatorToCondition(operator, value)` (where-builder module;
identical private copy in src/src/index.ts): maps a comparison symbol to
a one-tag operator bag; any unrecognized symbol falls to the default
case, an `$eq` bag. -/
def operatorToCondition (operator : String) (value : Value) : WhereOperator :=
  match operator with
  | "=" => { eq := some (some value) }
  | "!=" | "<>" => { ne := some (some value) }
  | ">" => { gt := some (some value) }
  | ">=" => { gte := some (some value) }
  | "<" => { lt := some (some value) }
  | "<=" => { lte := some (some value) }
  | "LIKE" => { like := some (some value) }
  | "NOT LIKE" => { notLike := some (some value) }
  | _ => { eq := some (some value) }

/-- JavaScript object spread `{...a, ...b}` on objects embedded as
association lists: keys of `a` keep their position (value overridden by
`b` when present there), keys only in `b` are appended in `b`'s order. -/
def objMerge (a b : List (String × WhereValue)) : List (String × WhereValue) :=
  (a.map fun kv =>
    match b.find? (fun kv2 => kv2.1 = kv.1) with
    | some kv2 => (kv.1, kv2.2)
    | none => kv) ++
  b.filter (fun kv2 => ¬ a.any (fun kv => kv.1 = kv2.1))

/-- The `this._orConditions.map(...)` loop shared by the SELECT, UPDATE
and DELETE builders: each OR branch is compiled against a fresh parameter
list, wrapped in parentheses, and its parameters are appended to the main
list in branch-registration order. -/
def compileOrClauses (orConds : List (List (String × WhereValue)))
    (params : List Value) : List String × List Value :=
  match orConds with
  | [] => ([], params)
  | oc :: rest =>
    let r := buildWhereClause oc []
    let rec2 := compileOrClauses rest (params ++ r.2)
    (("(" ++ r.1 ++ ")") :: rec2.1, rec2.2)

/-- True when the tag is present with a defined payload, i.e. when
`buildCondition` compiles it. -/
def presentDefined : Option (Option α) → Bool
  | some (some _) => true
  | _ => false

/-- An operator bag none of whose tags has a defined payload: every tag is
absent or `undefined`, so the bag compiles to no fragment and no
parameters. -/
def bagNoCompiledTag (b : WhereOperator) : Bool :=
  !(presentDefined b.eq || presentDefined b.ne || presentDefined b.gt ||
    presentDefined b.gte || presentDefined b.lt || presentDefined b.lte ||
    presentDefined b.like || presentDefined b.notLike || presentDefined b.inOp ||
    presentDefined b.notInOp || presentDefined b.between || presentDefined b.isNull)

/-- Sort direction (TS type `OrderDirection`). -/
inductive Dir where
  | asc
  | desc
deriving DecidableEq, Repr

/-- Render one ORDER BY entry: `"${column}" ${direction || "ASC"}`.
A missing direction renders as "ASC" (the `||` fallback). -/
def renderOrderEntry (o : String × Option Dir) : String :=
  dquote o.1 ++ " " ++ (match o.2 with
    | some .asc => "ASC"
    | some .desc => "DESC"
    | none => "ASC")

namespace QueryBuilder

/-- Accumulated clause state of `QueryBuilder` (src/src/query-builder.ts).
Field defaults are the class field initializers. -/
structure State where
  tableName : String
  whereConds : List (String × WhereValue) := []
  orConditions : List (List (String × WhereValue)) := []
  orderByCols : List (String × Option Dir) := []
  limitN : Option Int := none
  offsetN : Option Int := none
  selectCols : List String := ["*"]
  distinct : Bool := false
  groupByCols : List String := []
  havingConds : List (String × WhereValue) := []
deriving DecidableEq, Repr

/-- `QueryBuilder.buildQuery` (src/src/query-builder.ts lines 202-263):
renders the SELECT statement and its ordered parameter list from the
current state. -/
def buildQuery (s : State) : String × List Value :=
  let selectClause := if s.distinct then "SELECT DISTINCT" else "SELECT"
  let sql := selectClause ++ " " ++ joinSep ", " s.selectCols ++ " FROM " ++ dquote s.tableName
  let wc := buildWhereClause s.whereConds []
  let oc := compileOrClauses s.orConditions wc.2
  let sql :=
    if wc.1 ≠ "" ∨ oc.1 ≠ [] then
      let allConditions := if wc.1 ≠ "" then ["(" ++ wc.1 ++ ")"] else []
      if oc.1 ≠ [] then
        if allConditions ≠ [] then
          sql ++ " WHERE " ++ joinSep " AND " allConditions ++ " OR " ++ joinSep " OR " oc.1
        else
          sql ++ " WHERE " ++ joinSep " OR " oc.1
      else
        sql ++ " WHERE " ++ wc.1
    else sql
  let sql := if s.groupByCols ≠ [] then
      sql ++ " GROUP BY " ++ joinSep ", " (s.groupByCols.map dquote)
    else sql
  let hc := buildWhereClause s.havingConds oc.2
  let sql := if hc.1 ≠ "" then sql ++ " HAVING " ++ hc.1 else sql
  let sql := if s.orderByCols ≠ [] then
      sql ++ " ORDER BY " ++ joinSep ", " (s.orderByCols.map renderOrderEntry)
    else sql
  let sql := match s.limitN with
    | some n => sql ++ " LIMIT " ++ toString n
    | none => sql
  let sql := match s.offsetN with
    | some n => sql ++ " OFFSET " ++ toString n
    | none => sql
  (sql, hc.2)

/-- The `SELECT ... FROM ...` head of the rendered query. -/
def selectBase (s : State) : String :=
  (if s.distinct then "SELECT DISTINCT" else "SELECT") ++ " " ++
    joinSep ", " s.selectCols ++ " FROM " ++ dquote s.tableName

/-- Everything `buildQuery` appends after the WHERE section:
GROUP BY, HAVING, ORDER BY, LIMIT, OFFSET, in that fixed order. -/
def afterWhereSql (s : State) : String :=
  (if s.groupByCols ≠ [] then " GROUP BY " ++ joinSep ", " (s.groupByCols.map dquote) else "") ++
  (if (buildWhereClause s.havingConds []).1 ≠ "" then
      " HAVING " ++ (buildWhereClause s.havingConds []).1 else "") ++
  (if s.orderByCols ≠ [] then " ORDER BY " ++ joinSep ", " (s.orderByCols.map renderOrderEntry) else "") ++
  (match s.limitN with | some n => " LIMIT " ++ toString n | none => "") ++
  (match s.offsetN with | some n => " OFFSET " ++ toString n | none => "")

/-- `QueryBuilder.toSQL` (src/src/query-builder.ts lines 404-406): returns
`buildQuery()` of the current state; it executes nothing and mutates no
state (it is a pure function of the state in this embedding, and the
source method body is a single `return this.buildQuery()`). -/
def toSQL (s : State) : String × List Value := buildQuery s

/-- Execution model of `all()` (and its alias `run()`): the statement
executed and the state the builder is left in. -/
def allm (s : State) : (String × List Value) × State := (buildQuery s, s)

/-- Execution model of `run()`, an alias for `all()`. -/
def runm (s : State) : (String × List Value) × State := allm s

/-- Execution model of `first()` (src/src/query-builder.ts lines 289-294):
sets `this._limit = 1` and only then renders and executes. -/
def firstm (s : State) : (String × List Value) × State :=
  let s2 := { s with limitN := some 1 }
  (buildQuery s2, s2)

/-- `QueryBuilder.count` (src/src/query-builder.ts lines 337-349): a
separate `SELECT COUNT(*)` statement whose WHERE clause is compiled from
the AND-state mapping alone. -/
def countQuery (s : State) : String × List Value :=
  let r := buildWhereClause s.whereConds []
  ("SELECT COUNT(*) as count FROM " ++ dquote s.tableName ++
     (if r.1 ≠ "" then " WHERE " ++ r.1 else ""), r.2)

/-- Execution model of `count()`. -/
def countm (s : State) : (String × List Value) × State := (countQuery s, s)

/-- `QueryBuilder.aggregate` (src/src/query-builder.ts lines 382-399):
a separate aggregate statement using the AND-state WHERE and GROUP BY. -/
def aggregateQuery (s : State) (fn column : String) : String × List Value :=
  let r := buildWhereClause s.whereConds []
  ("SELECT " ++ fn ++ "(" ++ dquote column ++ ") as result FROM " ++ dquote s.tableName ++
     (if r.1 ≠ "" then " WHERE " ++ r.1 else "") ++
     (if s.groupByCols ≠ [] then " GROUP BY " ++ joinSep ", " (s.groupByCols.map dquote) else ""),
   r.2)

/-- Execution model of `exists()`: wraps the rendered query. -/
def existsm (s : State) : (String × List Value) × State :=
  let q := buildQuery s
  (("SELECT EXISTS(" ++ q.1 ++ ") as exists_result", q.2), s)

end QueryBuilder

namespace DeleteBuilder

/-- Accumulated clause state of `DeleteBuilder` (delete-builder module,
src/unnamed/part_002). -/
structure State where
  tableName : String
  whereConds : List (String × WhereValue) := []
  orConditions : List (List (String × WhereValue)) := []
  orderByCols : List (String × Option Dir) := []
  limitN : Option Int := none
deriving DecidableEq, Repr

/-- `where(conditions)` overload: merge the mapping into the AND-state by
object spread (`{...this._where, ...conditions}`). -/
def whereMapping (s : State) (conditions : List (String × WhereValue)) : State :=
  { s with whereConds := objMerge s.whereConds conditions }

/-- `where(column, operator, value)` overload: normalize the triple with
`operatorToCondition` and merge it as a one-key mapping
(`{...this._where, [column]: condition}`). -/
def whereTriple (s : State) (column operator : String) (value : Value) : State :=
  { s with whereConds :=
      objMerge s.whereConds [(column, WhereValue.bag (operatorToCondition operator value))] }

/-- `orWhere(conditions)` overload: append a branch to the OR-list. -/
def orWhereMapping (s : State) (conditions : List (String × WhereValue)) : State :=
  { s with orConditions := s.orConditions ++ [conditions] }

/-- `orWhere(column, operator, value)` overload. -/
def orWhereTriple (s : State) (column operator : String) (value : Value) : State :=
  { s with orConditions :=
      s.orConditions ++ [[(column, WhereValue.bag (operatorToCondition operator value))]] }

/-- `DeleteBuilder.buildQuery` (src/unnamed/part_002 lines 97-135). -/
def buildQuery (s : State) : String × List Value :=
  let sql := "DELETE FROM " ++ dquote s.tableName
  let wc := buildWhereClause s.whereConds []
  let oc := compileOrClauses s.orConditions wc.2
  let sql :=
    if wc.1 ≠ "" ∨ oc.1 ≠ [] then
      if wc.1 ≠ "" ∧ oc.1 ≠ [] then
        sql ++ " WHERE (" ++ wc.1 ++ ") OR " ++ joinSep " OR " oc.1
      else if oc.1 ≠ [] then
        sql ++ " WHERE " ++ joinSep " OR " oc.1
      else
        sql ++ " WHERE " ++ wc.1
    else sql
  let sql := if s.orderByCols ≠ [] then
      sql ++ " ORDER BY " ++ joinSep ", " (s.orderByCols.map renderOrderEntry)
    else sql
  let sql := match s.limitN with
    | some n => sql ++ " LIMIT " ++ toString n
    | none => sql
  (sql, oc.2)

/-- The ORDER BY / LIMIT suffix appended after the WHERE section. -/
def afterWhereSql (s : State) : String :=
  (if s.orderByCols ≠ [] then " ORDER BY " ++ joinSep ", " (s.orderByCols.map renderOrderEntry) else "") ++
  (match s.limitN with | some n => " LIMIT " ++ toString n | none => "")

/-- `DeleteBuilder.toSQL`: returns `buildQuery()` of the current state. -/
def toSQL (s : State) : String × List Value := buildQuery s

end DeleteBuilder

namespace UpdateBuilder

/-- Accumulated clause state of `UpdateBuilder` (update-builder module,
embedded in src/src/index.ts lines 124-293).  `data` is the SET-data
mapping supplied at construction. -/
structure State where
  tableName : String
  data : List (String × Value)
  whereConds : List (String × WhereValue) := []
  orConditions : List (List (String × WhereValue)) := []
  orderByCols : List (String × Option Dir) := []
  limitN : Option Int := none
deriving DecidableEq, Repr

/-- `where(conditions)` overload. -/
def whereMapping (s : State) (conditions : List (String × WhereValue)) : State :=
  { s with whereConds := objMerge s.whereConds conditions }

/-- `where(column, operator, value)` overload. -/
def whereTriple (s : State) (column operator : String) (value : Value) : State :=
  { s with whereConds :=
      objMerge s.whereConds [(column, WhereValue.bag (operatorToCondition operator value))] }

/-- `UpdateBuilder.buildQuery` (src/src/index.ts lines 215-260): SET
values are pushed first, then the WHERE parameters. -/
def buildQuery (s : State) : String × List Value :=
  let setClauses := joinSep ", " (s.data.map fun kv => dquote kv.1 ++ " = ?")
  let params := s.data.map Prod.snd
  let sql := "UPDATE " ++ dquote s.tableName ++ " SET " ++ setClauses
  let wc := buildWhereClause s.whereConds params
  let oc := compileOrClauses s.orConditions wc.2
  let sql :=
    if wc.1 ≠ "" ∨ oc.1 ≠ [] then
      if wc.1 ≠ "" ∧ oc.1 ≠ [] then
        sql ++ " WHERE (" ++ wc.1 ++ ") OR " ++ joinSep " OR " oc.1
      else if oc.1 ≠ [] then
        sql ++ " WHERE " ++ joinSep " OR " oc.1
      else
        sql ++ " WHERE " ++ wc.1
    else sql
  let sql := if s.orderByCols ≠ [] then
      sql ++ " ORDER BY " ++ joinSep ", " (s.orderByCols.map renderOrderEntry)
    else sql
  let sql := match s.limitN with
    | some n => sql ++ " LIMIT " ++ toString n
    | none => sql
  (sql, oc.2)

/-- The ORDER BY / LIMIT suffix appended after the WHERE section. -/
def afterWhereSql (s : State) : String :=
  (if s.orderByCols ≠ [] then " ORDER BY " ++ joinSep ", " (s.orderByCols.map renderOrderEntry) else "") ++
  (match s.limitN with | some n => " LIMIT " ++ toString n | none => "")

/-- `UpdateBuilder.toSQL`: returns `buildQuery()` of the current state. -/
def toSQL (s : State) : String × List Value := buildQuery s

end UpdateBuilder

/-- Conflict resolution strategy for INSERT operations
(src/src/insert-builder.ts). -/
inductive ConflictResolution where
  | abort
  | ignore
  | replace
deriving DecidableEq, Repr

namespace InsertBuilder

/-- State of `InsertBuilder` (src/src/insert-builder.ts): the row data,
the conflict mode (default "abort"), the optional `ifNotExists`
precondition mapping, and the table's primary-key column if any. -/
structure State where
  tableName : String
  data : List (String × Value)
  conflictResolution : ConflictResolution := .abort
  checkCondition : Option (List (String × WhereValue)) := none
  primaryKey : Option String := none
deriving Repr

/-- Abstract view of the embedded engine during one `run()` call:
whether a row matching the compiled `ifNotExists` condition exists, the
`changes()` counter after the INSERT, the `last_insert_rowid()` value,
and row lookup by id (`SELECT * FROM t WHERE pk = ?`). -/
structure Engine where
  existsResult : Bool
  changes : Int
  lastId : Int
  rowById : Int → Option Row

/-- `InsertBuilder.buildQuery` (src/src/insert-builder.ts lines 67-82). -/
def buildQuery (s : State) : String × List Value :=
  let keys := s.data.map Prod.fst
  let values := s.data.map Prod.snd
  let placeholders := joinSep ", " (keys.map fun _ => "?")
  let columns := joinSep ", " (keys.map dquote)
  let insertKeyword :=
    match s.conflictResolution with
    | .ignore => "INSERT OR IGNORE"
    | .replace => "INSERT OR REPLACE"
    | .abort => "INSERT"
  (insertKeyword ++ " INTO " ++ dquote s.tableName ++ " (" ++ columns ++ ") VALUES (" ++
     placeholders ++ ")", values)

/-- `InsertBuilder.recordExists` (src/src/insert-builder.ts lines 99-111):
compiles the condition; if the fragment is empty it returns false WITHOUT
querying the engine, otherwise it runs the EXISTS query.  Returns the
result and the statements executed. -/
def recordExists (s : State) (e : Engine) (condition : List (String × WhereValue)) :
    Bool × List (String × List Value) :=
  let r := buildWhereClause condition []
  if r.1 = "" then (false, [])
  else
    (e.existsResult,
     [("SELECT EXISTS(SELECT 1 FROM " ++ dquote s.tableName ++ " WHERE " ++ r.1 ++
         ") as exists_result", r.2)])

/-- `InsertBuilder.findById` (src/src/insert-builder.ts lines 116-124). -/
def findById (s : State) (e : Engine) (id : Int) : Option Row × List (String × List Value) :=
  match s.primaryKey with
  | none => (none, [])
  | some pk =>
    (e.rowById id,
     [("SELECT * FROM " ++ dquote s.tableName ++ " WHERE " ++ dquote pk ++ " = ?",
       [Value.int id])])

/-- Steps 2-4 of `run()`: execute the INSERT, read `changes()`, and on a
non-zero count resolve the return value via the primary key or fall back
to the supplied data verbatim. -/
def runInsert (s : State) (e : Engine) (tr : List (String × List Value)) :
    Option Row × List (String × List Value) :=
  let q := buildQuery s
  let tr := tr ++ [q, ("SELECT changes() as count", [])]
  if e.changes = 0 then (none, tr)
  else
    let tr := tr ++ [("SELECT last_insert_rowid() as id", [])]
    match s.primaryKey with
    | some _ =>
      let r := findById s e e.lastId
      (r.1, tr ++ r.2)
    | none => (some s.data, tr)

/-- `InsertBuilder.run` (src/src/insert-builder.ts lines 130-161).
Returns the produced row (or the null sentinel) together with the list of
statements executed against the engine. -/
def run (s : State) (e : Engine) : Option Row × List (String × List Value) :=
  match s.checkCondition with
  | some cond =>
    let r := recordExists s e cond
    if r.1 then (none, r.2)
    else runInsert s e r.2
  | none => runInsert s e []

end InsertBuilder

/-- Outcome of a `ResultProxy` mutation method: a returned affected-row
count or a thrown error. -/
inductive MutationOutcome where
  | count (n : Int)
  | failure (msg : String)
deriving DecidableEq, Repr

namespace ResultProxy

/-- `ResultProxy.delete` (result-proxy module, src/src/index.ts lines
780-797): a null wrapped row returns the count 0 immediately; a missing
or empty primary key, or a primary key absent from the row, throws; else
the DELETE runs and `changes()` is returned.  `changes` abstracts the
engine's counter; the second component lists the statements executed. -/
def delete (tableName : String) (primaryKey : Option String) (data : Option Row)
    (changes : Int) : MutationOutcome × List (String × List Value) :=
  match data with
  | none => (.count 0, [])
  | some row =>
    match primaryKey with
    | none =>
      (.failure "Cannot delete: No primary key defined or primary key not found in record", [])
    | some pk =>
      if pk = "" ∨ row.all (fun kv => kv.1 ≠ pk) then
        (.failure "Cannot delete: No primary key defined or primary key not found in record", [])
      else
        match row.find? (fun kv => kv.1 = pk) with
        | none =>
          (.failure "Cannot delete: No primary key defined or primary key not found in record", [])
        | some kv =>
          (.count changes,
           [("DELETE FROM " ++ dquote tableName ++ " WHERE " ++ dquote pk ++ " = ?", [kv.2]),
            ("SELECT changes() as count", [])])

/-- `ResultProxy.update` (src/src/index.ts lines 803-824): same guards as
`delete`; on success runs an UPDATE with the partial data's SET values
followed by the id. -/
def update (tableName : String) (primaryKey : Option String) (data : Option Row)
    (updData : List (String × Value)) (changes : Int) :
    MutationOutcome × List (String × List Value) :=
  match data with
  | none => (.count 0, [])
  | some row =>
    match primaryKey with
    | none =>
      (.failure "Cannot update: No primary key defined or primary key not found in record", [])
    | some pk =>
      if pk = "" ∨ row.all (fun kv => kv.1 ≠ pk) then
        (.failure "Cannot update: No primary key defined or primary key not found in record", [])
      else
        match row.find? (fun kv => kv.1 = pk) with
        | none =>
          (.failure "Cannot update: No primary key defined or primary key not found in record", [])
        | some kv =>
          (.count changes,
           [("UPDATE " ++ dquote tableName ++ " SET " ++
               joinSep ", " (updData.map fun u => dquote u.1 ++ " = ?") ++
               " WHERE " ++ dquote pk ++ " = ?", updData.map Prod.snd ++ [kv.2]),
            ("SELECT changes() as count", [])])

/-- `ResultProxy.save` (src/src/index.ts lines 831-852): same guards; on
success writes every non-primary-key field of the row back. -/
def save (tableName : String) (primaryKey : Option String) (data : Option Row)
    (changes : Int) : MutationOutcome × List (String × List Value) :=
  match data with
  | none => (.count 0, [])
  | some row =>
    match primaryKey with
    | none =>
      (.failure "Cannot save: No primary key defined or primary key not found in record", [])
    | some pk =>
      if pk = "" ∨ row.all (fun kv => kv.1 ≠ pk) then
        (.failure "Cannot save: No primary key defined or primary key not found in record", [])
      else
        match row.find? (fun kv => kv.1 = pk) with
        | none =>
          (.failure "Cannot save: No primary key defined or primary key not found in record", [])
        | some kv =>
          let updKeys := row.filter (fun kv2 => kv2.1 ≠ pk)
          (.count changes,
           [("UPDATE " ++ dquote tableName ++ " SET " ++
               joinSep ", " (updKeys.map fun u => dquote u.1 ++ " = ?") ++
               " WHERE " ++ dquote pk ++ " = ?", updKeys.map Prod.snd ++ [kv.2]),
            ("SELECT changes() as count", [])])

end ResultProxy

/-- `createResultProxy` (src/src/index.ts lines 905-941): returns the
null sentinel directly when the fetched data is null, so callers cannot
invoke mutation methods on a null result; otherwise wraps the row with
the primary key. -/
def createResultProxy (primaryKey : Option String) (data : Option Row) :
    Option (Option String × Row) :=
  match data with
  | none => none
  | some row => some (primaryKey, row)

/-- Fragment produced by `buildWhereClause` for a mapping (run on an
empty parameter list). -/
def wcFrag (w : List (String × WhereValue)) : String := (buildWhereClause w []).1

/-- Parameters appended by `buildWhereClause` for a mapping. -/
def wcParams (w : List (String × WhereValue)) : List Value := (buildWhereClause w []).2

/-- Sum of placeholder counts over a list of fragments. -/
def sumQ (l : List String) : Nat := (l.map qcount).sum

theorem qcount_append (a b : String) : qcount (a ++ b) = qcount a + qcount b := by
  simp [qcount, String.data_append, List.countP_append]

theorem qcount_dquote (s : String) : qcount (dquote s) = qcount s := by
  have h1 : qcount "\"" = 0 := by decide
  simp [dquote, qcount_append, h1]

theorem joinSep_qcount (sep : String) (hsep : qcount sep = 0) (l : List String) :
    qcount (joinSep sep l) = sumQ l := by
  induction l with
  | nil => simp [joinSep, sumQ]; decide
  | cons x xs ih =>
    cases xs with
    | nil => simp [joinSep, sumQ]
    | cons y ys =>
      simp only [joinSep] at ih ⊢
      simp [qcount_append, hsep, ih, sumQ]

theorem buildCondition_append (k : String) (v : WhereValue) (ps : List Value) :
    buildCondition k v ps = (condFrag k v, ps ++ condParams k v) := by
  cases v with
  | scalar x => rfl
  | bag b =>
    by_cases h : isWhereOperator b <;>
      simp [buildCondition, condFrag, condParams, h]

theorem buildWhereAux_eq (w : List (String × WhereValue)) (acc : List String)
    (ps : List Value) :
    buildWhereAux w acc ps =
      (acc ++ w.map (fun kv => condFrag kv.1 kv.2),
       ps ++ (w.map (fun kv => condParams kv.1 kv.2)).flatten) := by
  induction w generalizing acc ps with
  | nil => simp [buildWhereAux]
  | cons kv rest ih =>
    simp only [buildWhereAux, buildCondition_append]
    rw [ih]
    simp [List.append_assoc]

theorem buildWhereClause_eq (w : List (String × WhereValue)) (ps : List Value) :
    buildWhereClause w ps =
      (joinSep " AND " (w.map (fun kv => condFrag kv.1 kv.2)),
       ps ++ (w.map (fun kv => condParams kv.1 kv.2)).flatten) := by
  cases w with
  | nil => simp [buildWhereClause, joinSep]
  | cons kv rest =>
    simp only [buildWhereClause, List.isEmpty_cons, buildWhereAux_eq]
    simp

theorem buildWhereClause_split (w : List (String × WhereValue)) (ps : List Value) :
    buildWhereClause w ps = (wcFrag w, ps ++ wcParams w) := by
  rw [buildWhereClause_eq, wcFrag, wcParams, buildWhereClause_eq]
  simp

theorem compileOrClauses_eq (l : List (List (String × WhereValue))) (ps : List Value) :
    compileOrClauses l ps =
      (l.map (fun oc => "(" ++ wcFrag oc ++ ")"),
       ps ++ (l.map wcParams).flatten) := by
  induction l generalizing ps with
  | nil => simp [compileOrClauses]
  | cons oc rest ih =>
    simp only [compileOrClauses, buildWhereClause_split]
    rw [ih]
    simp [List.append_assoc]

theorem sumQ_append (a b : List String) : sumQ (a ++ b) = sumQ a + sumQ b := by
  simp [sumQ]

theorem placeholders_rep (n : Nat) : qcount (joinSep ", " (List.replicate n "?")) = n := by
  rw [joinSep_qcount _ (by decide)]
  induction n with
  | zero => simp [sumQ]
  | succ k ih =>
    have h1 : qcount "?" = 1 := by decide
    simp only [List.replicate_succ, sumQ, List.map_cons, List.sum_cons] at ih ⊢
    omega

theorem placeholders_qcount {α : Type} (l : List α) :
    qcount (joinSep ", " (l.map fun _ => "?")) = l.length := by
  have := placeholders_rep l.length
  simpa [List.map_const] using this

theorem scalarPiece_q (column fragOp : String) (x : Option (Option Value))
    (h : qcount column = 0) (hop : qcount fragOp = 1) :
    sumQ (scalarPiece column fragOp x).1 = (scalarPiece column fragOp x).2.length := by
  match x with
  | none => simp [scalarPiece, sumQ]
  | some none => simp [scalarPiece, sumQ]
  | some (some v) => simp [scalarPiece, sumQ, qcount_append, h, hop]

theorem inPiece_q (column kw : String) (x : Option (Option (List Value)))
    (h : qcount column = 0) (hkw : qcount kw = 0) :
    sumQ (inPiece column kw x).1 = (inPiece column kw x).2.length := by
  match x with
  | none => simp [inPiece, sumQ]
  | some none => simp [inPiece, sumQ]
  | some (some l) =>
    have hp := placeholders_qcount l
    have hr := placeholders_rep l.length
    have h1 : qcount "(" = 0 := by decide
    have h2 : qcount ")" = 0 := by decide
    simp [inPiece, sumQ, qcount_append, h, hkw, hp, hr, h1, h2]

theorem betweenPiece_q (column : String) (x : Option (Option (Value × Value)))
    (h : qcount column = 0) :
    sumQ (betweenPiece column x).1 = (betweenPiece column x).2.length := by
  match x with
  | none => simp [betweenPiece, sumQ]
  | some none => simp [betweenPiece, sumQ]
  | some (some (lo, hi)) =>
    have h1 : qcount " BETWEEN ? AND ?" = 2 := by decide
    simp [betweenPiece, sumQ, qcount_append, h, h1]

theorem isNullPiece_q (column : String) (x : Option (Option Bool))
    (h : qcount column = 0) :
    sumQ (isNullPiece column x).1 = (isNullPiece column x).2.length := by
  match x with
  | none => simp [isNullPiece, sumQ]
  | some none => simp [isNullPiece, sumQ]
  | some (some b) =>
    have h1 : qcount " IS NULL" = 0 := by decide
    have h2 : qcount " IS NOT NULL" = 0 := by decide
    cases b <;> simp [isNullPiece, sumQ, qcount_append, h, h1, h2]

theorem tagPieces_qcount (column : String) (b : WhereOperator) (h : qcount column = 0) :
    sumQ ((tagPieces column b).map Prod.fst).flatten =
      (((tagPieces column b).map Prod.snd).flatten).length := by
  have e1 := scalarPiece_q column " = ?" b.eq h (by decide)
  have e2 := scalarPiece_q column " != ?" b.ne h (by decide)
  have e3 := scalarPiece_q column " > ?" b.gt h (by decide)
  have e4 := scalarPiece_q column " >= ?" b.gte h (by decide)
  have e5 := scalarPiece_q column " < ?" b.lt h (by decide)
  have e6 := scalarPiece_q column " <= ?" b.lte h (by decide)
  have e7 := scalarPiece_q column " LIKE ?" b.like h (by decide)
  have e8 := scalarPiece_q column " NOT LIKE ?" b.notLike h (by decide)
  have e9 := inPiece_q column " IN " b.inOp h (by decide)
  have e10 := inPiece_q column " NOT IN " b.notInOp h (by decide)
  have e11 := betweenPiece_q column b.between h
  have e12 := isNullPiece_q column b.isNull h
  simp only [tagPieces, List.map_cons, List.map_nil, List.flatten_cons, List.flatten_nil,
    sumQ_append, List.length_append, e1, e2, e3, e4, e5, e6, e7, e8, e9, e10, e11, e12,
    List.append_nil]

theorem condFrag_qcount (k : String) (v : WhereValue) (h : qcount k = 0) :
    qcount (condFrag k v) = (condParams k v).length := by
  have hq : qcount (dquote k) = 0 := by rw [qcount_dquote]; exact h
  cases v with
  | scalar x =>
    have h1 : qcount " = ?" = 1 := by decide
    simp [condFrag, condParams, buildCondition, qcount_append, hq, h1]
  | bag b =>
    by_cases hb : isWhereOperator b
    · simp only [condFrag, condParams, buildCondition, hb, if_true]
      rw [joinSep_qcount _ (by decide)]
      simpa using tagPieces_qcount (dquote k) b hq
    · have h1 : qcount " = ?" = 1 := by decide
      simp [condFrag, condParams, buildCondition, hb, qcount_append, hq, h1]

theorem wcFrag_eq (w : List (String × WhereValue)) :
    wcFrag w = joinSep " AND " (w.map fun kv => condFrag kv.1 kv.2) := by
  rw [wcFrag, buildWhereClause_eq]

theorem wcParams_eq (w : List (String × WhereValue)) :
    wcParams w = (w.map fun kv => condParams kv.1 kv.2).flatten := by
  rw [wcParams, buildWhereClause_eq]
  simp

theorem listCond_qcount (w : List (String × WhereValue))
    (h : ∀ kv ∈ w, qcount kv.1 = 0) :
    sumQ (w.map fun kv => condFrag kv.1 kv.2) =
      ((w.map fun kv => condParams kv.1 kv.2).flatten).length := by
  induction w with
  | nil => simp [sumQ]
  | cons kv rest ih =>
    have h1 := condFrag_qcount kv.1 kv.2 (h kv (by simp))
    have h2 := ih (fun kv2 hm => h kv2 (by simp [hm]))
    simp only [List.map_cons, sumQ, List.sum_cons, List.flatten_cons, List.length_append] at h2 ⊢
    omega

theorem wc_qcount (w : List (String × WhereValue))
    (h : ∀ kv ∈ w, qcount kv.1 = 0) :
    qcount (wcFrag w) = (wcParams w).length := by
  rw [wcFrag_eq, wcParams_eq, joinSep_qcount _ (by decide)]
  exact listCond_qcount w h

/-- C1: For every condition mapping handed to the WHERE-clause compiler,
the number of `?` placeholders in the returned fragment equals the number
of parameters appended to the parameter list, and the left-to-right order
of placeholders matches the order of the appended parameters: the
compiler only ever appends a parameter together with the fragment piece
holding its placeholder, so the whole fragment is the " AND "-join of the
per-column fragments in mapping order while the appended parameters are
the concatenation of the per-column parameter lists in the same order,
and each per-column fragment carries exactly as many placeholders as that
column's parameters.  Column names are assumed to contain no literal `?`
character, since the source interpolates the (quoted) column name into
the fragment text. -/
theorem whereCompiler_placeholder_param_alignment :
    (∀ (k : String) (v : WhereValue) (ps : List Value),
      buildCondition k v ps = (condFrag k v, ps ++ condParams k v)) ∧
    (∀ (w : List (String × WhereValue)) (ps : List Value),
      buildWhereClause w ps =
        (joinSep " AND " (w.map fun kv => condFrag kv.1 kv.2),
         ps ++ (w.map fun kv => condParams kv.1 kv.2).flatten)) ∧
    (∀ (k : String) (v : WhereValue), qcount k = 0 →
      qcount (condFrag k v) = (condParams k v).length) ∧
    (∀ (w : List (String × WhereValue)), (∀ kv ∈ w, qcount kv.1 = 0) →
      qcount (wcFrag w) = (wcParams w).length) :=
  ⟨buildCondition_append, buildWhereClause_eq, condFrag_qcount, wc_qcount⟩

/-- Witness for C1 at a concrete mapping combining an operator bag, an
IN-list and a scalar. -/
theorem whereCompiler_placeholder_param_alignment_witness :
    qcount (wcFrag [("age", WhereValue.bag { gte := some (some (Value.int 10)),
                                             lt := some (some (Value.int 20)) }),
                    ("role", WhereValue.bag { inOp := some (some [Value.str "a", Value.str "b"]) }),
                    ("status", WhereValue.scalar (Value.str "active"))]) =
      (wcParams [("age", WhereValue.bag { gte := some (some (Value.int 10)),
                                          lt := some (some (Value.int 20)) }),
                 ("role", WhereValue.bag { inOp := some (some [Value.str "a", Value.str "b"]) }),
                 ("status", WhereValue.scalar (Value.str "active"))]).length :=
  whereCompiler_placeholder_param_alignment.2.2.2 _ (by decide)

/-- C9: For every column, an operator bag with several present tags is
compiled in the fixed source order (eq, ne, gt, gte, lt, lte, like,
notLike, in, notIn, between, isNull) with the per-tag fragments joined by
" AND " and the parameters appended in the same order; in particular
`{gte: 10, lt: 20}` on column c renders `"c" >= ? AND "c" < ?` with
parameters [10, 20].  The embedding's bag is a record probed field by
field in that fixed order, exactly as the source reads the object's
properties by name in a fixed sequence and never iterates its keys, so
the result is independent of the insertion order of the tags. -/
theorem operatorBag_fixed_tag_order :
    (∀ (b : WhereOperator), isWhereOperator b = true →
      ∀ (k : String) (ps : List Value),
        buildCondition k (WhereValue.bag b) ps =
          (joinSep " AND " ((tagPieces (dquote k) b).map Prod.fst).flatten,
           ps ++ ((tagPieces (dquote k) b).map Prod.snd).flatten)) ∧
    (∀ (v1 v2 : Value) (ps : List Value),
      buildCondition "c" (WhereValue.bag { gte := some (some v1), lt := some (some v2) }) ps =
        ("\"c\" >= ? AND \"c\" < ?", ps ++ [v1, v2])) ∧
    (buildCondition "c" (WhereValue.bag { gte := some (some (Value.int 10)),
                                          lt := some (some (Value.int 20)) }) [] =
      ("\"c\" >= ? AND \"c\" < ?", [Value.int 10, Value.int 20])) ∧
    (buildCondition "c" (WhereValue.bag
        { eq := some (some (Value.int 1)), ne := some (some (Value.int 2)),
          gt := some (some (Value.int 3)), gte := some (some (Value.int 4)),
          lt := some (some (Value.int 5)), lte := some (some (Value.int 6)),
          like := some (some (Value.str "L")), notLike := some (some (Value.str "N")),
          inOp := some (some [Value.int 7, Value.int 8]),
          notInOp := some (some [Value.int 9]),
          between := some (some (Value.int 10, Value.int 11)),
          isNull := some (some true) }) [] =
      ("\"c\" = ? AND \"c\" != ? AND \"c\" > ? AND \"c\" >= ? AND \"c\" < ? AND \"c\" <= ? AND " ++
         "\"c\" LIKE ? AND \"c\" NOT LIKE ? AND \"c\" IN (?, ?) AND \"c\" NOT IN (?) AND " ++
         "\"c\" BETWEEN ? AND ? AND \"c\" IS NULL",
       [Value.int 1, Value.int 2, Value.int 3, Value.int 4, Value.int 5, Value.int 6,
        Value.str "L", Value.str "N", Value.int 7, Value.int 8, Value.int 9,
        Value.int 10, Value.int 11])) := by
  refine ⟨?_, ?_, ?_, ?_⟩
  · intro b hb k ps
    simp [buildCondition, hb]
  · intro v1 v2 ps
    rfl
  · decide
  · decide

/-- Witness for C9's general conjunct at a concrete two-tag bag. -/
theorem operatorBag_fixed_tag_order_witness :
    isWhereOperator { gte := some (some (Value.int 10)), lt := some (some (Value.int 20)) } = true ∧
    buildCondition "price"
        (WhereValue.bag { gte := some (some (Value.int 10)), lt := some (some (Value.int 20)) }) [] =
      ("\"price\" >= ? AND \"price\" < ?", [Value.int 10, Value.int 20]) :=
  ⟨by decide,
   (operatorBag_fixed_tag_order.1 _ (by decide) "price" []).trans (by decide)⟩

/-- C10: A condition-mapping entry whose value is the scalar `null`
compiles to `"c" = ?` with `null` appended as a bound parameter: `null`
is rejected by `isWhereOperator` (explicit `value === null` test) and so
always takes the scalar equality path, never producing an IS NULL check;
only the explicit `$isNull` tag produces `IS NULL` / `IS NOT NULL`, with
no bound parameter. -/
theorem nullScalar_binds_parameter :
    (∀ (k : String) (ps : List Value),
      buildCondition k (WhereValue.scalar Value.nullv) ps =
        (dquote k ++ " = ?", ps ++ [Value.nullv])) ∧
    (∀ (k : String) (ps : List Value),
      buildCondition k (WhereValue.bag { isNull := some (some true) }) ps =
        (dquote k ++ " IS NULL", ps)) ∧
    (∀ (k : String) (ps : List Value),
      buildCondition k (WhereValue.bag { isNull := some (some false) }) ps =
        (dquote k ++ " IS NOT NULL", ps)) := by
  refine ⟨fun k ps => rfl, fun k ps => ?_, fun k ps => ?_⟩ <;>
    simp [buildCondition, isWhereOperator, tagPieces, scalarPiece, inPiece,
      betweenPiece, isNullPiece, joinSep]

/-- C2 (amended): for each of the SELECT, UPDATE and DELETE builders,
whenever the AND-state mapping compiles to a non-empty fragment and the
OR-condition list is non-empty, the rendered WHERE clause is
`WHERE (<and-fragment>) OR (<or-branch-1>) OR (<or-branch-2>) ...` — each
OR branch an alternative to the entire AND-state — and the parameters are
the AND-state parameters followed by each OR branch's parameters in
branch-registration order (preceded by the SET values for UPDATE, and
followed by the HAVING parameters for SELECT).  The non-emptiness of the
compiled AND fragment, rather than of the AND mapping itself, is the
condition the code actually tests. -/
theorem whereOr_composition :
    (∀ s : QueryBuilder.State, wcFrag s.whereConds ≠ "" → s.orConditions ≠ [] →
      QueryBuilder.buildQuery s =
        (QueryBuilder.selectBase s ++ " WHERE " ++ "(" ++ wcFrag s.whereConds ++ ")" ++ " OR " ++
           joinSep " OR " (s.orConditions.map fun oc => "(" ++ wcFrag oc ++ ")") ++
           QueryBuilder.afterWhereSql s,
         wcParams s.whereConds ++ (s.orConditions.map wcParams).flatten ++
           wcParams s.havingConds)) ∧
    (∀ t : DeleteBuilder.State, wcFrag t.whereConds ≠ "" → t.orConditions ≠ [] →
      DeleteBuilder.buildQuery t =
        ("DELETE FROM " ++ dquote t.tableName ++ " WHERE (" ++ wcFrag t.whereConds ++ ") OR " ++
           joinSep " OR " (t.orConditions.map fun oc => "(" ++ wcFrag oc ++ ")") ++
           DeleteBuilder.afterWhereSql t,
         wcParams t.whereConds ++ (t.orConditions.map wcParams).flatten)) ∧
    (∀ u : UpdateBuilder.State, wcFrag u.whereConds ≠ "" → u.orConditions ≠ [] →
      UpdateBuilder.buildQuery u =
        ("UPDATE " ++ dquote u.tableName ++ " SET " ++
           joinSep ", " (u.data.map fun kv => dquote kv.1 ++ " = ?") ++
           " WHERE (" ++ wcFrag u.whereConds ++ ") OR " ++
           joinSep " OR " (u.orConditions.map fun oc => "(" ++ wcFrag oc ++ ")") ++
           UpdateBuilder.afterWhereSql u,
         u.data.map Prod.snd ++ wcParams u.whereConds ++
           (u.orConditions.map wcParams).flatten)) := by
  refine ⟨?_, ?_, ?_⟩
  · intro s hw ho
    have ho2 : (s.orConditions.map fun oc => "(" ++ wcFrag oc ++ ")") ≠ [] := by
      simpa [List.map_eq_nil_iff] using ho
    cases hL : s.limitN <;> cases hO : s.offsetN <;>
      simp only [QueryBuilder.buildQuery, QueryBuilder.selectBase, QueryBuilder.afterWhereSql,
        buildWhereClause_split, compileOrClauses_eq, List.nil_append, hL, hO] <;>
      simp [hw, ho2, joinSep, ← String.append_assoc, List.append_assoc] <;>
      split_ifs <;> simp [← String.append_assoc, String.append_empty, String.empty_append]
  · intro t hw ho
    have ho2 : (t.orConditions.map fun oc => "(" ++ wcFrag oc ++ ")") ≠ [] := by
      simpa [List.map_eq_nil_iff] using ho
    cases hL : t.limitN <;>
      simp only [DeleteBuilder.buildQuery, DeleteBuilder.afterWhereSql,
        buildWhereClause_split, compileOrClauses_eq, List.nil_append, hL] <;>
      simp [hw, ho2, joinSep, ← String.append_assoc, List.append_assoc] <;>
      split_ifs <;> simp [← String.append_assoc, String.append_empty, String.empty_append]
  · intro u hw ho
    have ho2 : (u.orConditions.map fun oc => "(" ++ wcFrag oc ++ ")") ≠ [] := by
      simpa [List.map_eq_nil_iff] using ho
    cases hL : u.limitN <;>
      simp only [UpdateBuilder.buildQuery, UpdateBuilder.afterWhereSql,
        buildWhereClause_split, compileOrClauses_eq, List.nil_append, hL] <;>
      simp [hw, ho2, joinSep, ← String.append_assoc, List.append_assoc] <;>
      split_ifs <;> simp [← String.append_assoc, String.append_empty, String.empty_append]

/-- Witness for C2 at the spec's own example: AND-state {status: "active"}
with one OR branch {role: "admin"}. -/
theorem whereOr_composition_witness :
    wcFrag [("status", WhereValue.scalar (Value.str "active"))] ≠ "" ∧
    QueryBuilder.buildQuery
        { tableName := "t",
          whereConds := [("status", WhereValue.scalar (Value.str "active"))],
          orConditions := [[("role", WhereValue.scalar (Value.str "admin"))]] } =
      ("SELECT * FROM \"t\" WHERE (\"status\" = ?) OR (\"role\" = ?)",
       [Value.str "active", Value.str "admin"]) :=
  ⟨by decide,
   (whereOr_composition.1 _ (by decide) (by decide)).trans (by decide)⟩

/-- C2 counterexample: the AND-state mapping {a: {$eq: undefined}} is
non-empty but compiles to an empty fragment, and the code then renders
the OR branches alone, not `WHERE (<and-fragment>) OR (<branch>)` as the
claim states for every non-empty AND-state mapping. -/
theorem whereOr_composition_cex :
    QueryBuilder.buildQuery
        { tableName := "t",
          whereConds := [("a", WhereValue.bag { eq := some none })],
          orConditions := [[("role", WhereValue.scalar (Value.str "admin"))]] } =
      ("SELECT * FROM \"t\" WHERE (\"role\" = ?)", [Value.str "admin"]) ∧
    ([("a", WhereValue.bag { eq := some none })] : List (String × WhereValue)) ≠ [] ∧
    ("SELECT * FROM \"t\" WHERE (\"role\" = ?)" : String) ≠
      "SELECT * FROM \"t\" WHERE () OR (\"role\" = ?)" := by
  exact ⟨by decide, by decide, by decide⟩

theorem scalarPiece_empty (c o : String) (x : Option (Option Value))
    (h : presentDefined x = false) : scalarPiece c o x = ([], []) := by
  match x with
  | none => rfl
  | some none => rfl
  | some (some v) => simp [presentDefined] at h

theorem inPiece_empty (c kw : String) (x : Option (Option (List Value)))
    (h : presentDefined x = false) : inPiece c kw x = ([], []) := by
  match x with
  | none => rfl
  | some none => rfl
  | some (some l) => simp [presentDefined] at h

theorem betweenPiece_empty (c : String) (x : Option (Option (Value × Value)))
    (h : presentDefined x = false) : betweenPiece c x = ([], []) := by
  match x with
  | none => rfl
  | some none => rfl
  | some (some p) => simp [presentDefined] at h

theorem isNullPiece_empty (c : String) (x : Option (Option Bool))
    (h : presentDefined x = false) : isNullPiece c x = ([], []) := by
  match x with
  | none => rfl
  | some none => rfl
  | some (some b) => simp [presentDefined] at h

theorem bagNoCompiled_cond (k : String) (b : WhereOperator)
    (hop : isWhereOperator b = true) (h : bagNoCompiledTag b = true) :
    condFrag k (WhereValue.bag b) = "" ∧ condParams k (WhereValue.bag b) = [] := by
  simp only [bagNoCompiledTag, Bool.not_eq_true', Bool.or_eq_false_iff] at h
  obtain ⟨⟨⟨⟨⟨⟨⟨⟨⟨⟨⟨h1, h2⟩, h3⟩, h4⟩, h5⟩, h6⟩, h7⟩, h8⟩, h9⟩, h10⟩, h11⟩, h12⟩ := h
  have e1 := scalarPiece_empty (dquote k) " = ?" b.eq h1
  have e2 := scalarPiece_empty (dquote k) " != ?" b.ne h2
  have e3 := scalarPiece_empty (dquote k) " > ?" b.gt h3
  have e4 := scalarPiece_empty (dquote k) " >= ?" b.gte h4
  have e5 := scalarPiece_empty (dquote k) " < ?" b.lt h5
  have e6 := scalarPiece_empty (dquote k) " <= ?" b.lte h6
  have e7 := scalarPiece_empty (dquote k) " LIKE ?" b.like h7
  have e8 := scalarPiece_empty (dquote k) " NOT LIKE ?" b.notLike h8
  have e9 := inPiece_empty (dquote k) " IN " b.inOp h9
  have e10 := inPiece_empty (dquote k) " NOT IN " b.notInOp h10
  have e11 := betweenPiece_empty (dquote k) b.between h11
  have e12 := isNullPiece_empty (dquote k) b.isNull h12
  constructor <;>
    simp [condFrag, condParams, buildCondition, hop, tagPieces,
      e1, e2, e3, e4, e5, e6, e7, e8, e9, e10, e11, e12, joinSep]

/-- C3 (amended): a column whose value is an operator bag in which every
recognized tag's payload is undefined or absent contributes no
parameters, so the parameter list equals that of the mapping with the
column removed; its fragment, however, is the empty string and is still
joined into the per-column list with " AND " rather than silently
dropped, so the whole fragment matches the column-removed compilation
only when the empty-bag column is the sole entry of the mapping (then the
fragment is empty and the builders omit the WHERE keyword). -/
theorem emptyBag_contribution :
    ∀ (w1 w2 : List (String × WhereValue)) (k : String) (b : WhereOperator)
      (ps : List Value),
      isWhereOperator b = true → bagNoCompiledTag b = true →
      condFrag k (WhereValue.bag b) = "" ∧
      condParams k (WhereValue.bag b) = [] ∧
      (buildWhereClause (w1 ++ (k, WhereValue.bag b) :: w2) ps).2 =
        (buildWhereClause (w1 ++ w2) ps).2 ∧
      (buildWhereClause (w1 ++ (k, WhereValue.bag b) :: w2) ps).1 =
        joinSep " AND "
          (w1.map (fun kv => condFrag kv.1 kv.2) ++ [""] ++
           w2.map (fun kv => condFrag kv.1 kv.2)) ∧
      buildWhereClause [(k, WhereValue.bag b)] ps = ("", ps) := by
  intro w1 w2 k b ps hop h
  obtain ⟨hcf, hcp⟩ := bagNoCompiled_cond k b hop h
  refine ⟨hcf, hcp, ?_, ?_, ?_⟩
  · rw [buildWhereClause_eq, buildWhereClause_eq]
    simp [hcp]
  · rw [buildWhereClause_eq]
    simp [hcf]
  · rw [buildWhereClause_eq]
    simp [hcf, hcp, joinSep]

/-- Witness for C3's amended statement: the mapping {b: 5, a: {$eq:
undefined}, c: "x"} keeps exactly the parameters of {b: 5, c: "x"}, and a
sole empty-bag column compiles to the empty fragment with the parameter
list untouched. -/
theorem emptyBag_contribution_witness :
    isWhereOperator { eq := some none } = true ∧
    bagNoCompiledTag { eq := some none } = true ∧
    (buildWhereClause [("b", WhereValue.scalar (Value.int 5)),
                       ("a", WhereValue.bag { eq := some none }),
                       ("c", WhereValue.scalar (Value.str "x"))] []).2 =
      (buildWhereClause [("b", WhereValue.scalar (Value.int 5)),
                         ("c", WhereValue.scalar (Value.str "x"))] []).2 ∧
    buildWhereClause [("a", WhereValue.bag { eq := some none })] [Value.int 7] =
      ("", [Value.int 7]) :=
  ⟨by decide, by decide,
   (emptyBag_contribution [("b", WhereValue.scalar (Value.int 5))]
      [("c", WhereValue.scalar (Value.str "x"))] "a" _ [] (by decide) (by decide)).2.2.1,
   (emptyBag_contribution [] [] "a" _ [Value.int 7] (by decide) (by decide)).2.2.2.2⟩

/-- C3 counterexample: for the mapping {a: {$eq: undefined}, b: 5} the
empty-bag column is not dropped: the rendered fragment is
" AND \"b\" = ?" (a dangling separator), not the "\"b\" = ?" produced
when the column is removed, although the parameter lists agree. -/
theorem emptyBag_contribution_cex :
    buildWhereClause [("a", WhereValue.bag { eq := some none }),
                      ("b", WhereValue.scalar (Value.int 5))] [] =
      (" AND \"b\" = ?", [Value.int 5]) ∧
    buildWhereClause [("b", WhereValue.scalar (Value.int 5))] [] =
      ("\"b\" = ?", [Value.int 5]) ∧
    (" AND \"b\" = ?" : String) ≠ "\"b\" = ?" := by
  exact ⟨by decide, by decide, by decide⟩

/-- C7 (amended): `toSQL()` is pure (in this execution model it runs no
statement and leaves the builder state unchanged) and returns exactly the
statement that `all()` and its alias `run()` execute on the same state;
but `first()` first mutates the builder's limit to 1 and executes the
query of that modified state — which coincides with `toSQL()` of the
original state only when the limit was already 1 — and `count()` and
`exists()` execute separately derived statements, so `toSQL()` does not
return what every terminal method would execute. -/
theorem toSQL_matches_all_run :
    (∀ s : QueryBuilder.State, QueryBuilder.toSQL s = QueryBuilder.buildQuery s) ∧
    (∀ s : QueryBuilder.State, QueryBuilder.allm s = (QueryBuilder.toSQL s, s)) ∧
    (∀ s : QueryBuilder.State, QueryBuilder.runm s = (QueryBuilder.toSQL s, s)) ∧
    (∀ s : QueryBuilder.State, QueryBuilder.firstm s =
      (QueryBuilder.buildQuery { s with limitN := some 1 }, { s with limitN := some 1 })) ∧
    (∀ s : QueryBuilder.State, s.limitN = some 1 →
      QueryBuilder.firstm s = (QueryBuilder.toSQL s, s)) ∧
    (∀ s : QueryBuilder.State, QueryBuilder.countm s = (QueryBuilder.countQuery s, s)) ∧
    (∀ s : QueryBuilder.State, QueryBuilder.existsm s =
      (("SELECT EXISTS(" ++ (QueryBuilder.toSQL s).1 ++ ") as exists_result",
        (QueryBuilder.toSQL s).2), s)) ∧
    (∀ t : DeleteBuilder.State, DeleteBuilder.toSQL t = DeleteBuilder.buildQuery t) ∧
    (∀ u : UpdateBuilder.State, UpdateBuilder.toSQL u = UpdateBuilder.buildQuery u) := by
  refine ⟨fun s => rfl, fun s => rfl, fun s => rfl, fun s => rfl, ?_, fun s => rfl,
    fun s => rfl, fun t => rfl, fun u => rfl⟩
  intro s h
  have : ({ s with limitN := some 1 } : QueryBuilder.State) = s := by
    cases s
    simp_all
  simp [QueryBuilder.firstm, QueryBuilder.toSQL, this]

/-- Witness for C7's limit-already-1 conjunct. -/
theorem toSQL_matches_all_run_witness :
    ({ tableName := "user", limitN := some 1 } : QueryBuilder.State).limitN = some 1 ∧
    QueryBuilder.firstm { tableName := "user", limitN := some 1 } =
      (QueryBuilder.toSQL { tableName := "user", limitN := some 1 },
       { tableName := "user", limitN := some 1 }) :=
  ⟨rfl, toSQL_matches_all_run.2.2.2.2.1 _ rfl⟩

/-- C7 counterexample: on a builder with no limit set, `first()` executes
"SELECT * FROM \"user\" LIMIT 1" while `toSQL()` returns
"SELECT * FROM \"user\"" — `toSQL()` therefore does not return the
statement this terminal method executes, and `first()` leaves the builder
state changed (limit forced to 1). -/
theorem toSQL_matches_all_run_cex :
    (QueryBuilder.firstm { tableName := "user" }).1 ≠
      QueryBuilder.toSQL { tableName := "user" } ∧
    (QueryBuilder.firstm { tableName := "user" }).1.1 = "SELECT * FROM \"user\" LIMIT 1" ∧
    QueryBuilder.toSQL { tableName := "user" } = ("SELECT * FROM \"user\"", []) ∧
    (QueryBuilder.firstm { tableName := "user" }).2 ≠
      ({ tableName := "user" } : QueryBuilder.State) := by
  exact ⟨by decide, by decide, by decide, by decide⟩

/-- C8: `count()` renders a separate SELECT COUNT(*) statement whose
WHERE clause is compiled from the AND-state mapping alone — the
OR-condition list, the grouping and the having state are ignored — and
the aggregate methods (sum/avg/min/max) render a separate aggregate
statement using the AND-state WHERE and GROUP BY but ignoring the
OR-condition list (and the having state). -/
theorem count_aggregate_use_and_state_only :
    (∀ (s : QueryBuilder.State) (oc : List (List (String × WhereValue)))
       (g : List String) (hv : List (String × WhereValue)),
      QueryBuilder.countQuery
          { s with orConditions := oc, groupByCols := g, havingConds := hv } =
        QueryBuilder.countQuery s) ∧
    (∀ s : QueryBuilder.State,
      QueryBuilder.countQuery s =
        ("SELECT COUNT(*) as count FROM " ++ dquote s.tableName ++
           (if wcFrag s.whereConds ≠ "" then " WHERE " ++ wcFrag s.whereConds else ""),
         wcParams s.whereConds)) ∧
    (∀ (s : QueryBuilder.State) (oc : List (List (String × WhereValue)))
       (hv : List (String × WhereValue)) (fn col : String),
      QueryBuilder.aggregateQuery { s with orConditions := oc, havingConds := hv } fn col =
        QueryBuilder.aggregateQuery s fn col) ∧
    (∀ (s : QueryBuilder.State) (fn col : String),
      QueryBuilder.aggregateQuery s fn col =
        ("SELECT " ++ fn ++ "(" ++ dquote col ++ ") as result FROM " ++ dquote s.tableName ++
           (if wcFrag s.whereConds ≠ "" then " WHERE " ++ wcFrag s.whereConds else "") ++
           (if s.groupByCols ≠ [] then
              " GROUP BY " ++ joinSep ", " (s.groupByCols.map dquote) else ""),
         wcParams s.whereConds)) :=
  ⟨fun s oc g hv => rfl, fun s => rfl, fun s oc hv fn col => rfl, fun s fn col => rfl⟩

theorem objMerge_map_congr {α : Type} (w : List (String × WhereValue)) (c : String)
    (X Y : WhereValue) (g : String → WhereValue → α) (hg : g c X = g c Y) :
    (objMerge w [(c, X)]).map (fun kv => g kv.1 kv.2) =
      (objMerge w [(c, Y)]).map (fun kv => g kv.1 kv.2) := by
  unfold objMerge
  simp only [List.map_append, List.map_map]
  congr 1
  · apply List.map_congr_left
    intro kv _
    simp only [Function.comp]
    by_cases hc : c = kv.1
    · subst hc
      simp [List.find?_cons, hg]
    · have hc2 : ¬ ((c, X).1 = kv.1) := hc
      have hc3 : ¬ ((c, Y).1 = kv.1) := hc
      simp [List.find?_cons, hc2, hc3]
  · by_cases hp : w.any (fun kv => kv.1 = c)
    · simp [List.filter, hp]
    · simp [List.filter, hp, hg]

/-- C5: the operator normalizer `operatorToCondition` is a pure total
function over comparison symbols (in this embedding, over all strings):
each of the nine recognized symbols maps to its one-tag bag and every
unknown symbol falls to the default case, an eq bag; consequently, for
the builders exposing the triple overload (DeleteBuilder and
UpdateBuilder), `where(c, "=", v)` and `where({[c]: v})` — from any prior
builder state — compile to byte-identical SQL and identical parameter
lists, and at the compiler level `buildCondition` maps the normalized eq
bag and the raw scalar to identical output. -/
theorem operator_normalizer_converges :
    (∀ v : Value,
      operatorToCondition "=" v = { eq := some (some v) } ∧
      operatorToCondition "!=" v = { ne := some (some v) } ∧
      operatorToCondition "<>" v = { ne := some (some v) } ∧
      operatorToCondition ">" v = { gt := some (some v) } ∧
      operatorToCondition ">=" v = { gte := some (some v) } ∧
      operatorToCondition "<" v = { lt := some (some v) } ∧
      operatorToCondition "<=" v = { lte := some (some v) } ∧
      operatorToCondition "LIKE" v = { like := some (some v) } ∧
      operatorToCondition "NOT LIKE" v = { notLike := some (some v) }) ∧
    (∀ (s : String) (v : Value),
      s ∉ ["=", "!=", "<>", ">", ">=", "<", "<=", "LIKE", "NOT LIKE"] →
      operatorToCondition s v = { eq := some (some v) }) ∧
    (∀ (c : String) (v : Value) (ps : List Value),
      buildCondition c (WhereValue.bag (operatorToCondition "=" v)) ps =
        buildCondition c (WhereValue.scalar v) ps) ∧
    (∀ (st : DeleteBuilder.State) (c : String) (v : Value),
      DeleteBuilder.buildQuery (DeleteBuilder.whereTriple st c "=" v) =
        DeleteBuilder.buildQuery
          (DeleteBuilder.whereMapping st [(c, WhereValue.scalar v)])) ∧
    (∀ (st : UpdateBuilder.State) (c : String) (v : Value),
      UpdateBuilder.buildQuery (UpdateBuilder.whereTriple st c "=" v) =
        UpdateBuilder.buildQuery
          (UpdateBuilder.whereMapping st [(c, WhereValue.scalar v)])) := by
  refine ⟨fun v => ⟨rfl, rfl, rfl, rfl, rfl, rfl, rfl, rfl, rfl⟩, ?_, fun c v ps => rfl, ?_, ?_⟩
  · intro s v h
    simp only [List.mem_cons, List.not_mem_nil, or_false, not_or] at h
    obtain ⟨n1, n2, n3, n4, n5, n6, n7, n8, n9⟩ := h
    unfold operatorToCondition
    split <;> simp_all
  · intro st c v
    have hfrag : condFrag c (WhereValue.bag (operatorToCondition "=" v)) =
        condFrag c (WhereValue.scalar v) := rfl
    have hpar : condParams c (WhereValue.bag (operatorToCondition "=" v)) =
        condParams c (WhereValue.scalar v) := rfl
    have h1 := objMerge_map_congr st.whereConds c _ _ condFrag hfrag
    have h2 := objMerge_map_congr st.whereConds c _ _ condParams hpar
    have hf : wcFrag (objMerge st.whereConds
          [(c, WhereValue.bag (operatorToCondition "=" v))]) =
        wcFrag (objMerge st.whereConds [(c, WhereValue.scalar v)]) := by
      rw [wcFrag_eq, wcFrag_eq, h1]
    have hp : wcParams (objMerge st.whereConds
          [(c, WhereValue.bag (operatorToCondition "=" v))]) =
        wcParams (objMerge st.whereConds [(c, WhereValue.scalar v)]) := by
      rw [wcParams_eq, wcParams_eq, h2]
    simp only [DeleteBuilder.buildQuery, DeleteBuilder.whereTriple,
      DeleteBuilder.whereMapping, buildWhereClause_split, hf, hp]
  · intro st c v
    have hfrag : condFrag c (WhereValue.bag (operatorToCondition "=" v)) =
        condFrag c (WhereValue.scalar v) := rfl
    have hpar : condParams c (WhereValue.bag (operatorToCondition "=" v)) =
        condParams c (WhereValue.scalar v) := rfl
    have h1 := objMerge_map_congr st.whereConds c _ _ condFrag hfrag
    have h2 := objMerge_map_congr st.whereConds c _ _ condParams hpar
    have hf : wcFrag (objMerge st.whereConds
          [(c, WhereValue.bag (operatorToCondition "=" v))]) =
        wcFrag (objMerge st.whereConds [(c, WhereValue.scalar v)]) := by
      rw [wcFrag_eq, wcFrag_eq, h1]
    have hp : wcParams (objMerge st.whereConds
          [(c, WhereValue.bag (operatorToCondition "=" v))]) =
        wcParams (objMerge st.whereConds [(c, WhereValue.scalar v)]) := by
      rw [wcParams_eq, wcParams_eq, h2]
    simp only [UpdateBuilder.buildQuery, UpdateBuilder.whereTriple,
      UpdateBuilder.whereMapping, buildWhereClause_split, hf, hp]

/-- Witness for C5 at a concrete unknown symbol and a concrete builder
state. -/
theorem operator_normalizer_converges_witness :
    ("=~" : String) ∉ ["=", "!=", "<>", ">", ">=", "<", "<=", "LIKE", "NOT LIKE"] ∧
    operatorToCondition "=~" (Value.int 3) = { eq := some (some (Value.int 3)) } ∧
    DeleteBuilder.buildQuery
        (DeleteBuilder.whereTriple { tableName := "user" } "email" "=" (Value.str "a")) =
      DeleteBuilder.buildQuery
        (DeleteBuilder.whereMapping { tableName := "user" }
          [("email", WhereValue.scalar (Value.str "a"))]) :=
  ⟨by decide, operator_normalizer_converges.2.1 "=~" (Value.int 3) (by decide),
   operator_normalizer_converges.2.2.2.1 _ "email" (Value.str "a")⟩

theorem runInsert_result (st : InsertBuilder.State) (e : InsertBuilder.Engine)
    (tr : List (String × List Value)) :
    (InsertBuilder.runInsert st e tr).1 =
      if e.changes = 0 then none
      else match st.primaryKey with
        | some _ => e.rowById e.lastId
        | none => some st.data := by
  by_cases hc : e.changes = 0
  · simp [InsertBuilder.runInsert, hc]
  · cases hpk : st.primaryKey <;>
      simp [InsertBuilder.runInsert, InsertBuilder.findById, hc, hpk]

theorem run_result_pass (st : InsertBuilder.State) (e : InsertBuilder.Engine)
    (hpass : st.checkCondition = none ∨
      ∃ m, st.checkCondition = some m ∧ (wcFrag m = "" ∨ e.existsResult = false)) :
    (InsertBuilder.run st e).1 =
      if e.changes = 0 then none
      else match st.primaryKey with
        | some _ => e.rowById e.lastId
        | none => some st.data := by
  rcases hpass with hcc | ⟨m, hcc, hm⟩
  · rw [InsertBuilder.run, hcc]
    exact runInsert_result st e []
  · rw [InsertBuilder.run, hcc]
    rcases hm with hm | hm
    · simp only [InsertBuilder.recordExists, buildWhereClause_split, List.nil_append, hm,
        ite_true, if_pos rfl]
      simp only [Bool.false_eq_true, if_false]
      exact runInsert_result st e []
    · simp only [InsertBuilder.recordExists, buildWhereClause_split, List.nil_append, hm]
      by_cases hf : wcFrag m = "" <;> simp only [hf, if_true, if_false, ite_true, ite_false,
        Bool.false_eq_true] <;> exact runInsert_result st e _

/-- C4 (amended): `InsertBuilder.run()` returns the null sentinel without
executing the INSERT when an `ifNotExists` mapping whose compiled
fragment is non-empty is set and the existence query reports a match (a
precondition mapping compiling to the empty fragment — such as `{}` — is
skipped entirely: `recordExists` returns false without querying, so the
INSERT proceeds even if matching rows exist); when the check passes or is
absent it returns null if the engine reports zero affected rows, and
otherwise returns the row re-fetched via the engine's
last-inserted-row-id when a primary key is known, or the supplied data
verbatim when none is. -/
theorem insertRun_noop_and_refetch :
    (∀ (st : InsertBuilder.State) (e : InsertBuilder.Engine)
       (m : List (String × WhereValue)),
      st.checkCondition = some m → wcFrag m ≠ "" → e.existsResult = true →
      InsertBuilder.run st e =
        (none, [("SELECT EXISTS(SELECT 1 FROM " ++ dquote st.tableName ++ " WHERE " ++
                   wcFrag m ++ ") as exists_result", wcParams m)])) ∧
    (∀ (st : InsertBuilder.State) (e : InsertBuilder.Engine),
      (st.checkCondition = none ∨
        ∃ m, st.checkCondition = some m ∧ (wcFrag m = "" ∨ e.existsResult = false)) →
      e.changes = 0 → (InsertBuilder.run st e).1 = none) ∧
    (∀ (st : InsertBuilder.State) (e : InsertBuilder.Engine) (pk : String),
      (st.checkCondition = none ∨
        ∃ m, st.checkCondition = some m ∧ (wcFrag m = "" ∨ e.existsResult = false)) →
      e.changes ≠ 0 → st.primaryKey = some pk →
      (InsertBuilder.run st e).1 = e.rowById e.lastId) ∧
    (∀ (st : InsertBuilder.State) (e : InsertBuilder.Engine),
      (st.checkCondition = none ∨
        ∃ m, st.checkCondition = some m ∧ (wcFrag m = "" ∨ e.existsResult = false)) →
      e.changes ≠ 0 → st.primaryKey = none →
      (InsertBuilder.run st e).1 = some st.data) := by
  refine ⟨?_, ?_, ?_, ?_⟩
  · intro st e m hcc hf he
    rw [InsertBuilder.run, hcc]
    simp [InsertBuilder.recordExists, buildWhereClause_split, hf, he]
  · intro st e hpass hc
    rw [run_result_pass st e hpass]
    simp [hc]
  · intro st e pk hpass hc hpk
    rw [run_result_pass st e hpass]
    simp [hc, hpk]
  · intro st e hpass hc hpk
    rw [run_result_pass st e hpass]
    simp [hc, hpk]

/-- Witness for C4: a set precondition with a non-empty fragment and a
reported match yields the null sentinel with only the EXISTS query
executed; with no precondition and one affected row and no primary key,
the supplied data comes back verbatim. -/
theorem insertRun_noop_and_refetch_witness :
    ({ tableName := "t", data := [("x", Value.int 1)],
       checkCondition := some [("email", WhereValue.scalar (Value.str "a"))] }
        : InsertBuilder.State).checkCondition =
      some [("email", WhereValue.scalar (Value.str "a"))] ∧
    wcFrag [("email", WhereValue.scalar (Value.str "a"))] ≠ "" ∧
    InsertBuilder.run
        { tableName := "t", data := [("x", Value.int 1)],
          checkCondition := some [("email", WhereValue.scalar (Value.str "a"))] }
        { existsResult := true, changes := 1, lastId := 7, rowById := fun _ => none } =
      (none, [("SELECT EXISTS(SELECT 1 FROM \"t\" WHERE \"email\" = ?) as exists_result",
               [Value.str "a"])]) ∧
    (InsertBuilder.run
        { tableName := "t", data := [("x", Value.int 1)] }
        { existsResult := false, changes := 1, lastId := 7, rowById := fun _ => none }).1 =
      some [("x", Value.int 1)] :=
  ⟨rfl, by decide,
   (insertRun_noop_and_refetch.1 _ _ _ rfl (by decide) rfl).trans (by decide),
   (insertRun_noop_and_refetch.2.2.2 _ _ (Or.inl rfl) (by decide) rfl)⟩

/-- C4 counterexample: `ifNotExists({})` — a set precondition mapping
that compiles to the empty fragment — is skipped: even though the engine
would report that a matching row exists (`existsResult = true`, and with
an empty condition every row matches), `run()` executes the INSERT and
returns a non-null row, where the claim requires the null sentinel with
no INSERT executed. -/
theorem insertRun_noop_and_refetch_cex :
    ({ tableName := "t", data := [("x", Value.int 1)], checkCondition := some [] }
        : InsertBuilder.State).checkCondition ≠ none ∧
    InsertBuilder.run
        { tableName := "t", data := [("x", Value.int 1)], checkCondition := some [] }
        { existsResult := true, changes := 1, lastId := 7, rowById := fun _ => none } =
      (some [("x", Value.int 1)],
       [("INSERT INTO \"t\" (\"x\") VALUES (?)", [Value.int 1]),
        ("SELECT changes() as count", []),
        ("SELECT last_insert_rowid() as id", [])]) := by
  exact ⟨by simp, by decide⟩

/-- C6 (amended): the Result Wrapper mutation methods (delete, update,
save) raise a failure when the wrapped row is non-null but no primary key
is known, the key is empty, or the key column is absent from the row;
when the wrapped row is the null sentinel, however, they do not raise:
each returns the count 0 immediately without executing any statement.
`createResultProxy` itself returns the null sentinel for null data, so
callers going through the public factory can never invoke a mutation
method on a null row. -/
theorem resultProxy_guards :
    (∀ (t : String) (pk : Option String) (ch : Int),
      ResultProxy.delete t pk none ch = (.count 0, [])) ∧
    (∀ (t : String) (pk : Option String) (upd : List (String × Value)) (ch : Int),
      ResultProxy.update t pk none upd ch = (.count 0, [])) ∧
    (∀ (t : String) (pk : Option String) (ch : Int),
      ResultProxy.save t pk none ch = (.count 0, [])) ∧
    (∀ (t : String) (row : Row) (ch : Int),
      (ResultProxy.delete t none (some row) ch).1 =
        .failure "Cannot delete: No primary key defined or primary key not found in record") ∧
    (∀ (t : String) (row : Row) (upd : List (String × Value)) (ch : Int),
      (ResultProxy.update t none (some row) upd ch).1 =
        .failure "Cannot update: No primary key defined or primary key not found in record") ∧
    (∀ (t : String) (row : Row) (ch : Int),
      (ResultProxy.save t none (some row) ch).1 =
        .failure "Cannot save: No primary key defined or primary key not found in record") ∧
    (∀ (t pk : String) (row : Row) (ch : Int),
      pk = "" ∨ row.all (fun kv => kv.1 ≠ pk) →
      (ResultProxy.delete t (some pk) (some row) ch).1 =
        .failure "Cannot delete: No primary key defined or primary key not found in record") ∧
    (∀ (t pk : String) (row : Row) (upd : List (String × Value)) (ch : Int),
      pk = "" ∨ row.all (fun kv => kv.1 ≠ pk) →
      (ResultProxy.update t (some pk) (some row) upd ch).1 =
        .failure "Cannot update: No primary key defined or primary key not found in record") ∧
    (∀ (t pk : String) (row : Row) (ch : Int),
      pk = "" ∨ row.all (fun kv => kv.1 ≠ pk) →
      (ResultProxy.save t (some pk) (some row) ch).1 =
        .failure "Cannot save: No primary key defined or primary key not found in record") ∧
    (∀ pk : Option String, createResultProxy pk none = none) := by
  refine ⟨fun t pk ch => rfl, fun t pk upd ch => rfl, fun t pk ch => rfl,
    fun t row ch => rfl, fun t row upd ch => rfl, fun t row ch => rfl,
    ?_, ?_, ?_, fun pk => rfl⟩
  · intro t pk row ch h
    simp only [ResultProxy.delete]
    rw [if_pos (by simpa using h)]
  · intro t pk row upd ch h
    simp only [ResultProxy.update]
    rw [if_pos (by simpa using h)]
  · intro t pk row ch h
    simp only [ResultProxy.save]
    rw [if_pos (by simpa using h)]

/-- Witness for C6's guarded conjuncts: a non-null row that lacks the
primary-key column makes all three mutation methods fail. -/
theorem resultProxy_guards_witness :
    (("" : String) = "id" ∨
      ([("name", Value.str "a")] : Row).all (fun kv => kv.1 ≠ "id")) ∧
    (ResultProxy.delete "user" (some "id") (some [("name", Value.str "a")]) 3).1 =
      .failure "Cannot delete: No primary key defined or primary key not found in record" ∧
    (ResultProxy.update "user" (some "id") (some [("name", Value.str "a")])
        [("name", Value.str "b")] 3).1 =
      .failure "Cannot update: No primary key defined or primary key not found in record" ∧
    (ResultProxy.save "user" (some "id") (some [("name", Value.str "a")]) 3).1 =
      .failure "Cannot save: No primary key defined or primary key not found in record" := by
  refine ⟨Or.inr (by decide), ?_, ?_, ?_⟩
  · exact resultProxy_guards.2.2.2.2.2.2.1 "user" "id" _ 3 (Or.inr (by decide))
  · exact resultProxy_guards.2.2.2.2.2.2.2.1 "user" "id" _ _ 3 (Or.inr (by decide))
  · exact resultProxy_guards.2.2.2.2.2.2.2.2.1 "user" "id" _ 3 (Or.inr (by decide))

/-- C6 counterexample: with the wrapped row being the null sentinel, each
mutation method returns the count 0 — a count, not a raised failure — so
the claim that these operations raise a failure when the wrapped row is
the null sentinel is false on the `ResultProxy` class itself (only the
`createResultProxy` factory shields callers by returning null). -/
theorem resultProxy_guards_cex :
    ResultProxy.delete "user" (some "id") none 5 = (.count 0, []) ∧
    ResultProxy.update "user" (some "id") none [("a", Value.int 1)] 5 = (.count 0, []) ∧
    ResultProxy.save "user" (some "id") none 5 = (.count 0, []) ∧
    ∀ msg : String, (MutationOutcome.count 0) ≠ MutationOutcome.failure msg := by
  exact ⟨rfl, rfl, rfl, fun msg h => MutationOutcome.noConfusion h⟩
